import Mathlib

/-!
Verification development for the zgrab HTTP-result normalizer
(src/ivre/zgrabout.py, function zgrap_parser_http).

The Python function is shallowly embedded: every JSON dictionary that the
function inspects is modelled as a Lean structure whose fields are Option
types (a field is absent exactly when the Option is none); Python dicts
whose key order matters (HTTP headers) are modelled as ordered association
lists; Python exceptions (KeyError, AttributeError) are modelled by an
explicit error constructor in the output.  External collaborators
(certificate parsing, banner fingerprinting, byte codecs, directory-listing
extraction) are out of scope of the module and are passed in as an explicit
record of total functions, exactly at the interface the source calls them.

Modelling conventions, documented once here:
* a JSON dictionary that is present is assumed non-empty, so Python
  truthiness of a present sub-dictionary is isSome of the Option;
* Python int() applied to the port substring is modelled as parsing a
  non-empty all-digit string (surrounding whitespace / sign / underscore
  forms accepted by int() are not modelled);
* Python set iteration order is unspecified; the set of OWA versions is
  modelled as first-occurrence de-duplication, which agrees with the source
  whenever no two distinct version strings have the same numeric key;
* the warning messages of utils.LOGGER.warning are modelled as the list of
  missing field names they report, in the fixed order request, status_code,
  status_line (a Python set has no canonical order).
-/

namespace Zgrab

/-! ## String helpers (Python string operations, modelled on List Char) -/

/-- Matches a literal pattern at the head of the input; returns the rest on
success.  Models Python literal-regex / str operations. -/
def leadMatch : List Char → List Char → Option (List Char)
  | [], s => some s
  | _ :: _, [] => none
  | p :: ps, c :: cs => if c = p then leadMatch ps cs else none

/-- Case-insensitive variant of leadMatch; the pattern is given lowercase. -/
def leadMatchCI : List Char → List Char → Option (List Char)
  | [], s => some s
  | _ :: _, [] => none
  | p :: ps, c :: cs => if c.toLower = p then leadMatchCI ps cs else none

/-- Python s.startswith(p). -/
def strStartsWith (s p : String) : Bool := (leadMatch p.data s.data).isSome

/-- Python s.endswith(p). -/
def strEndsWith (s p : String) : Bool := (leadMatch p.data.reverse s.data.reverse).isSome

/-- Python s[:-n] (drop the last n characters; empty when n exceeds len). -/
def strTakeButLast (n : Nat) (s : String) : String := ⟨s.data.take (s.data.length - n)⟩

/-- Python hdr.replace(underscore, dash): the pattern is a single character,
so the replacement is a character map. -/
def strReplaceUS (s : String) : String :=
  ⟨s.data.map (fun c => if c = '_' then '-' else c)⟩

/-- Python s.split(colon, 1)[1]: everything after the first colon. -/
def afterFirstColon (s : String) : String :=
  ⟨(s.data.dropWhile (fun c => c ≠ ':')).drop 1⟩

/-- Value of a non-empty list of digit characters. -/
def digitsToNat (l : List Char) : Nat := l.foldl (fun a c => a * 10 + (c.toNat - 48)) 0

/-- Models Python int() on the port substring: a non-empty all-digit string
parses; anything else fails (ValueError, caught by the source). -/
def parseIntSimple (s : String) : Option Int :=
  if !s.data.isEmpty && s.data.all Char.isDigit then some (digitsToNat s.data) else none

/-- Python sep.join(l). -/
def strJoinSep (sep : String) : List String → String
  | [] => ""
  | [x] => x
  | x :: xs => x ++ sep ++ strJoinSep sep xs

/-- Python str.split on the dot character (no maxsplit). -/
def splitDots : List Char → List (List Char)
  | [] => [[]]
  | c :: cs =>
    let r := splitDots cs
    if c = '.' then [] :: r
    else
      match r with
      | h :: t => (c :: h) :: t
      | [] => [[c]]

/-! ## The two regular expressions of the module

_EXPR_TITLE (line 33) and _EXPR_OWA_VERSION (line 34) are simple enough
that their backtracking behaviour is deterministic; they are implemented
directly. -/

/-- One match attempt of _EXPR_TITLE at the current position:
a literal open-title tag (case-insensitive), any characters other than a
closing angle bracket, the bracket, the captured run of characters other
than an opening angle bracket, then the literal closing tag. -/
def matchTitleAt (l : List Char) : Option String :=
  match leadMatchCI "<title".data l with
  | none => none
  | some r1 =>
    match r1.dropWhile (fun c => c ≠ '>') with
    | '>' :: r2 =>
      let inner := r2.takeWhile (fun c => c ≠ '<')
      match leadMatchCI "</title>".data (r2.dropWhile (fun c => c ≠ '<')) with
      | some _ => some ⟨inner⟩
      | none => none
    | _ => none

/-- _EXPR_TITLE.search: first match over successive start positions. -/
def findTitle : List Char → Option String
  | [] => none
  | c :: cs =>
    match matchTitleAt (c :: cs) with
    | some t => some t
    | none => findTitle cs

/-- Extends a dotted-digit run: repeatedly consumes a dot followed by a
non-empty digit run.  Models the greedy group (digits dot)+ digits.
Structural recursion on a fuel counter so that the definition reduces in
the kernel; every iteration consumes at least two characters while the
fuel drops by one, so a fuel equal to the remaining length (see
versionExt) never runs out before the natural stop. -/
def versionExtFuel : Nat → List Char → List Char → List Char × List Char
  | 0, acc, rest => (acc, rest)
  | fuel + 1, acc, rest =>
    match rest with
    | '.' :: r1 =>
      let d := r1.takeWhile Char.isDigit
      if d.isEmpty then (acc, '.' :: r1)
      else versionExtFuel fuel (acc ++ '.' :: d) (r1.drop d.length)
    | _ => (acc, rest)

/-- The greedy group extension at full fuel. -/
def versionExt (acc : List Char) (rest : List Char) : List Char × List Char :=
  versionExtFuel rest.length acc rest

/-- The captured group of _EXPR_OWA_VERSION: at least two digit runs
separated by dots (the regex requires at least one dot). -/
def versionCore (l : List Char) : Option (List Char × List Char) :=
  let d1 := l.takeWhile Char.isDigit
  if d1.isEmpty then none
  else
    let (full, rest) := versionExt d1 (l.drop d1.length)
    if full.length = d1.length then none else some (full, rest)

/-- One match attempt of _EXPR_OWA_VERSION at the current position: a
double quote, the literal owa path piece, an optional auth piece, the
captured dotted version, a closing slash.  Returns the capture and the
total length of the match. -/
def matchOwaAt (l : List Char) : Option (String × Nat) :=
  match leadMatch "\"/owa/".data l with
  | none => none
  | some r1 =>
    let r2 := match leadMatch "auth/".data r1 with
      | some r => r
      | none => r1
    match versionCore r2 with
    | none => none
    | some (ds, r3) =>
      match r3 with
      | '/' :: r4 => some (⟨ds⟩, l.length - r4.length)
      | _ => none

/-- _EXPR_OWA_VERSION.finditer: non-overlapping matches, scanning left to
right, resuming after the end of each match.  Structural recursion on a
fuel counter so that the definition reduces in the kernel; every step
consumes at least one character while the fuel drops by one, so a fuel
equal to the input length (see owaFindAux) never runs out early. -/
def owaFindFuel : Nat → List Char → List String
  | 0, _ => []
  | fuel + 1, l =>
    match l with
    | [] => []
    | c :: cs =>
      match matchOwaAt (c :: cs) with
      | some (v, k) => v :: owaFindFuel fuel (cs.drop (k - 1))
      | none => owaFindFuel fuel cs

/-- The finditer scan at full fuel. -/
def owaFindAux (l : List Char) : List String := owaFindFuel l.length l

/-- First-occurrence de-duplication; models the Python set of captures. -/
def dedupKeepFirst (l : List String) : List String :=
  l.foldl (fun acc v => if acc.contains v then acc else acc ++ [v]) []

/-- All distinct OWA versions found in a body. -/
def owaVersionsOf (body : String) : List String := dedupKeepFirst (owaFindAux body.data)

/-! ## Sorting versions by numeric tuple (source line 135-136) -/

/-- Python key function: [int(x) for x in v.split(dot)]. -/
def verKey (v : String) : List Nat := (splitDots v.data).map digitsToNat

/-- Lexicographic comparison of Python int lists (shorter list first on a
common run, as in Python list comparison). -/
def keyLe : List Nat → List Nat → Bool
  | [], _ => true
  | _ :: _, [] => false
  | a :: as, b :: bs => if a < b then true else if b < a then false else keyLe as bs

/-- Insertion into a list sorted by verKey. -/
def insertVersion (x : String) : List String → List String
  | [] => [x]
  | y :: ys => if keyLe (verKey x) (verKey y) then x :: y :: ys else y :: insertVersion x ys

/-- Python sorted(versions, key=numeric tuple). -/
def sortVersions (l : List String) : List String := l.foldr insertVersion []

/-! ## Data model (the JSON shapes the source inspects) -/

/-- The url sub-dictionary of a request (keys host, scheme, path, all
optional: the source reads them with .get, except path which it reads with
.get and then calls .endswith on). -/
structure URLData where
  scheme : Option String
  host : Option String
  path : Option String
deriving DecidableEq, Repr

/-- tls certificate leaf: key raw (source line 82). -/
structure CertificateData where
  raw : Option String
deriving DecidableEq, Repr

/-- server_certificates sub-dictionary (source line 82). -/
structure ServerCertificates where
  certificate : Option CertificateData
deriving DecidableEq, Repr

/-- A TLS handshake log (either schema version), of which the source only
reads server_certificates.certificate.raw. -/
structure TLSHandshakeData where
  server_certificates : Option ServerCertificates
deriving DecidableEq, Repr

/-- zgrab2 tls_log wrapper: key handshake_log (source line 76). -/
structure TLSLogData where
  handshake_log : Option TLSHandshakeData
deriving DecidableEq, Repr

/-- An entry of the un-named header bucket: keys key and value, where value
is the list of values (source lines 172-174). -/
structure UnknownHeader where
  key : String
  value : List String
deriving DecidableEq, Repr

/-- The headers dictionary: an insertion-ordered mapping from header name to
value list, plus the optional un-named bucket under the key unknown. -/
structure HeadersData where
  known : List (String × List String)
  unknown : Option (List UnknownHeader)
deriving DecidableEq, Repr

/-- The request sub-dictionary (source lines 65-66, 71-78, 181). -/
structure RequestData where
  url : Option URLData
  tls_handshake : Option TLSHandshakeData
  tls_log : Option TLSLogData
  method : Option String
deriving DecidableEq, Repr

/-- The protocol sub-dictionary: key name (source line 164). -/
structure ProtocolData where
  name : Option String
deriving DecidableEq, Repr

/-- The response dictionary (source lines 55-66, 109-213). -/
structure Response where
  request : Option RequestData
  status_code : Option Int
  status_line : Option String
  protocol : Option ProtocolData
  headers : Option HeadersData
  body : Option String
deriving DecidableEq, Repr

/-- Contents of the zgrab2 result wrapper key (source lines 50-51); the
only key of it the rest of the function reads after the merge is
response. -/
structure RawDataInner where
  response : Option Response
deriving DecidableEq, Repr

/-- The raw top-level dictionary handed to the parser. -/
structure RawData where
  result : Option RawDataInner
  response : Option Response
deriving DecidableEq, Repr

/-- The mutable host record: an address (read at source line 117), the
hostname list (appended to through add_cert_hostnames at line 94-95,
created by setdefault when absent), and the remaining fields of the host
record, which the function never touches, collected in one bag. -/
structure HostRec where
  addr : String
  hostnames : Option (List String)
  other : List (String × String)
deriving DecidableEq, Repr

/-- Structured payload of a script entry; the shape is id-specific. -/
inductive ScriptPayload where
  | noPayload
  | sslCert (info : List String)
  | httpGit (entries : List (String × List String))
  | httpApp (entries : List (String × String × String))
  | httpHeaders (entries : List (String × String))
  | httpServerHeader (values : List String)
  | httpTitle (title : String)
  | httpLs (payload : String)
deriving DecidableEq, Repr

/-- One script entry: id, human-readable output, structured payload. -/
structure Script where
  id : String
  output : String
  payload : ScriptPayload
deriving DecidableEq, Repr

/-- The service record built by the function.  The five base fields are set
at source lines 67-69; port is Option so that the moment it is assigned
(lines 118, 137, 161) is visible; fields merged in by fingerprint matching
(res.update(info), line 199) are collected in extra. -/
structure ServiceRecord where
  service_name : String
  service_method : String
  state_state : String
  state_reason : String
  protocol : String
  service_tunnel : Option String
  port : Option Int
  scripts : List Script
  extra : List (String × String)
deriving DecidableEq, Repr

/-- A Python exception escaping the function. -/
inductive PyErr where
  | keyError (key : String)
  | attributeError (attr : String)
deriving DecidableEq, Repr

/-- Everything observable about one call: the final shape of the caller's
raw dictionary (mutated in place by the source), the final host record, the
warnings emitted (each as the list of missing field names it reports), and
the returned value: a service record, the empty dict (none), or a raised
exception. -/
structure POutput where
  data : Option RawData
  hostrec : HostRec
  warnings : List (List String)
  result : Except PyErr (Option ServiceRecord)

/-- The external collaborators, at the exact interface the source calls
them (ivre.utils and ivre.xmlnmap; out of scope per the spec).
add_cert_hostnames is given the certificate info and the current hostname
list and returns the hostnames it appends, matching its contract (it may
only append). -/
structure Externals where
  create_ssl_cert : String → String × List String
  add_cert_hostnames : String → List String → List String
  match_nmap_svc_fp : List Nat → String → String → List (String × String)
  create_http_ls : String → Option URLData → Option (String × String)
  nmap_decode_data : String → List Nat
  nmap_encode_data : String → String

/-- A trivial instantiation of the collaborators, used to run the function
on concrete inputs. -/
def trivExt : Externals where
  create_ssl_cert := fun _ => ("", [])
  add_cert_hostnames := fun _ _ => []
  match_nmap_svc_fp := fun _ _ _ => []
  create_http_ls := fun _ _ => none
  nmap_decode_data := fun s => s.data.map Char.toNat
  nmap_encode_data := fun s => s

/-! ## Dictionary helpers -/

/-- Python dict assignment on an insertion-ordered association list:
overwrite in place when the key exists, append otherwise. -/
def dictSet {α : Type} : List (String × α) → String → α → List (String × α)
  | [], k, v => [(k, v)]
  | (k1, v1) :: t, k, v => if k1 = k then (k, v) :: t else (k1, v1) :: dictSet t k v

/-- Python dict .get on an association list. -/
def dictGet {α : Type} : List (String × α) → String → Option α
  | [], _ => none
  | (k1, v1) :: t, k => if k1 = k then some v1 else dictGet t k

/-! ## The function (zgrap_parser_http, source lines 37-216) -/

/-- Base fields of the record, source lines 67-69. -/
def baseRecord : ServiceRecord where
  service_name := "http"
  service_method := "probed"
  state_state := "open"
  state_reason := "response"
  protocol := "tcp"
  service_tunnel := none
  port := none
  scripts := []
  extra := []

/-- Python not data for a dict: true exactly when the dict is empty. -/
def rawDataEmpty (d : RawData) : Bool := d.result.isNone && d.response.isNone

/-- Source lines 50-51: data.update(data.pop(result)).  The wrapper key is
removed; its response key, when present, overwrites the top-level one. -/
def mergeResult (d : RawData) : RawData :=
  match d.result with
  | some r =>
    { result := none
      response := match r.response with
                  | some resp => some resp
                  | none => d.response }
  | none => d

/-- The required-field check of source lines 56-64: the fields of
needed_fields that are not keys of the response, in check order. -/
def missingFields (req : Option RequestData) (sc : Option Int) (sl : Option String) :
    List String :=
  (if req.isSome then [] else ["request"]) ++
  (if sc.isSome then [] else ["status_code"]) ++
  (if sl.isSome then [] else ["status_line"])

/-- Source lines 70-78: the TLS handshake is looked up first under
tls_handshake (zgrab), then under tls_log.handshake_log (zgrab2); each
KeyError is caught. -/
def pyTls (req : RequestData) : Option TLSHandshakeData :=
  match req.tls_handshake with
  | some t => some t
  | none =>
    match req.tls_log with
    | some l => l.handshake_log
    | none => none

/-- Source lines 79-95: when a handshake was found, set the ssl tunnel;
when a leaf certificate is present and the extractor returns info, append
the ssl-cert script and extend the host hostname list (setdefault creates
it) certificate by certificate. -/
def tlsStage (ext : Externals) (tls : Option TLSHandshakeData)
    (res : ServiceRecord) (hostrec : HostRec) : ServiceRecord × HostRec :=
  match tls with
  | none => (res, hostrec)
  | some t =>
    let res1 := { res with service_tunnel := some "ssl" }
    match t.server_certificates.bind (fun sc =>
            sc.certificate.bind (fun c => c.raw)) with
    | none => (res1, hostrec)
    | some cert =>
      let oi := ext.create_ssl_cert cert
      if oi.2.isEmpty then (res1, hostrec)
      else
        let res2 := { res1 with
          scripts := res1.scripts ++ [⟨"ssl-cert", oi.1, .sslCert oi.2⟩] }
        let hn := oi.2.foldl (fun acc c => acc ++ ext.add_cert_hostnames c acc)
                    (hostrec.hostnames.getD [])
        (res2, { hostrec with hostnames := some hn })

/-- Source lines 96-107: port inference when a URL is present. -/
def inferPortFromURL (u : URLData) : Int :=
  let host := u.host.getD ""
  let fromHost : Option Int :=
    if host.data.contains ':' then parseIntSimple (afterFirstColon host) else none
  match fromHost with
  | some p => p
  | none => if u.scheme = some "https" then 443 else 80

/-- Source lines 172-174: the un-named bucket is popped and its entries
written into the header mapping under their own keys. -/
def flattenUnknown (hs : HeadersData) : List (String × List String) :=
  match hs.unknown with
  | some unks => unks.foldl (fun m u => dictSet m u.key u.value) hs.known
  | none => hs.known

/-- Python truthiness of the headers dictionary. -/
def headersNonempty (hs : HeadersData) : Bool :=
  !(hs.known.isEmpty && hs.unknown.isNone)

/-- The byte string b"Server: " (source line 195). -/
def serverBytes : List Nat := "Server: ".data.map Char.toNat

/-- Source lines 166-196 (inside if resp.get(headers)): flatten the
un-named bucket, build the http-headers script (the structured list is
seeded with the synthetic _status entry; the request method, when truthy,
is appended to the output text only), then the http-server-header script
and the banner suffix when a server header exists.  Returns the final
header mapping (the bucket key is gone), the record, and the banner. -/
def headersStage (ext : Externals) (pname status_line : String) (req : RequestData)
    (res : ServiceRecord) (banner : List Nat) (hs : HeadersData) :
    HeadersData × ServiceRecord × List Nat :=
  let headers1 := flattenUnknown hs
  let line := pname ++ " " ++ status_line
  let entries := headers1.foldr
    (fun kv acc => kv.2.map (fun v => (strReplaceUS kv.1, v)) ++ acc) []
  let http_hdrs := ("_status", line) :: entries
  let outputLines := line :: entries.map (fun nv => nv.1 ++ ": " ++ nv.2)
  let res2 :=
    if http_hdrs.isEmpty then res
    else
      let m := req.method.getD ""
      let outputLines2 :=
        if m = "" then outputLines
        else outputLines ++ ["", "(Request type: " ++ m ++ ")"]
      { res with scripts := res.scripts ++
          [⟨"http-headers", strJoinSep "\n" outputLines2, .httpHeaders http_hdrs⟩] }
  match dictGet headers1 "server" with
  | some server =>
    if server.isEmpty then (⟨headers1, none⟩, res2, banner)
    else
      let res3 := { res2 with scripts := res2.scripts ++
        [⟨"http-server-header", server.headD "", .httpServerHeader server⟩] }
      let banner2 := banner ++ serverBytes ++
        ext.nmap_decode_data (server.headD "") ++ [13, 10, 13, 10]
      (⟨headers1, none⟩, res3, banner2)
  | none => (⟨headers1, none⟩, res2, banner)

/-- Source lines 200-215: the http-content script, the optional http-title
script, the optional listing script from the external extractor. -/
def bodyStage (ext : Externals) (url : Option URLData) (body : String)
    (res : ServiceRecord) : ServiceRecord :=
  let res1 := { res with scripts := res.scripts ++
    [⟨"http-content", ext.nmap_encode_data body, .noPayload⟩] }
  let res2 :=
    match findTitle body.data with
    | some t => { res1 with scripts := res1.scripts ++ [⟨"http-title", t, .httpTitle t⟩] }
    | none => res1
  match ext.create_http_ls body url with
  | some ls => { res2 with scripts := res2.scripts ++ [⟨"http-ls", ls.1, .httpLs ls.2⟩] }
  | none => res2

/-- Source lines 166-196: the headers block runs only when the headers
dictionary is truthy; otherwise the headers (and the record and banner) are
untouched. -/
def headersStep (ext : Externals) (pname status_line : String) (req : RequestData)
    (res : ServiceRecord) (banner : List Nat) (hOpt : Option HeadersData) :
    Option HeadersData × ServiceRecord × List Nat :=
  match hOpt with
  | some hs =>
    if headersNonempty hs then
      let s := headersStage ext pname status_line req res banner hs
      (some s.1, s.2.1, s.2.2)
    else (some hs, res, banner)
  | none => (none, res, banner)

/-- Source lines 197-199: fingerprint matching on the synthetic banner;
a truthy result is merged into the record (dict update). -/
def fpStep (ext : Externals) (banner : List Nat) (res : ServiceRecord) :
    ServiceRecord :=
  let info := ext.match_nmap_svc_fp banner "tcp" "GetRequest"
  if info.isEmpty then res
  else { res with extra := info.foldl (fun m kv => dictSet m kv.1 kv.2) res.extra }

/-- Source lines 200-215: the body block runs only when the body is
truthy. -/
def bodyStep (ext : Externals) (url : Option URLData) (bOpt : Option String)
    (res : ServiceRecord) : ServiceRecord :=
  match bOpt with
  | some b => if b = "" then res else bodyStage ext url b res
  | none => res

/-- Source lines 161-216: the generic path.  Sets the port, reconstructs
the synthetic banner (raising KeyError when the response has no
protocol.name), processes headers when they are truthy, runs the
fingerprint matcher, processes the body when truthy. -/
def genericStage (ext : Externals) (data1 : RawData) (resp : Response)
    (req : RequestData) (status_line : String) (res1 : ServiceRecord)
    (hostrec1 : HostRec) (port : Int) : POutput :=
  match resp.protocol with
  | none => ⟨some { data1 with response := some resp }, hostrec1, [],
             .error (.keyError "protocol")⟩
  | some proto =>
    match proto.name with
    | none => ⟨some { data1 with response := some resp }, hostrec1, [],
               .error (.keyError "name")⟩
    | some pname =>
      let res2 := { res1 with port := some port }
      let banner0 := ext.nmap_decode_data pname ++ [32] ++
        ext.nmap_decode_data status_line ++ [13, 10]
      let step := headersStep ext pname status_line req res2 banner0 resp.headers
      let res5 := bodyStep ext req.url resp.body (fpStep ext step.2.2 step.2.1)
      let resp2 := { resp with headers := step.1 }
      ⟨some { data1 with response := some resp2 }, hostrec1, [], .ok (some res5)⟩

/-- Source lines 65-216 after the required-field check has passed: TLS
enrichment, then the url branch (port inference, the git detector, the OWA
detector) or the no-url port defaults, then the generic path. -/
def mainAfterChecks (ext : Externals) (data1 : RawData) (resp : Response)
    (req : RequestData) (status_code : Int) (status_line : String)
    (hostrec : HostRec) : POutput :=
  let s := tlsStage ext (pyTls req) baseRecord hostrec
  let res1 := s.1
  let hostrec1 := s.2
  match req.url with
  | some u =>
    let port := inferPortFromURL u
    match u.path with
    | none =>
      -- source lines 109 and 126: url.get(path) is None and the source
      -- calls .endswith on it, raising AttributeError
      ⟨some { data1 with response := some resp }, hostrec1, [],
       .error (.attributeError "endswith")⟩
    | some path =>
      if strEndsWith path "/.git/index" then
        if status_code ≠ 200 then
          ⟨some { data1 with response := some resp }, hostrec1, [], .ok none⟩
        else if !strStartsWith (resp.body.getD "") "DIRC" then
          ⟨some { data1 with response := some resp }, hostrec1, [], .ok none⟩
        else
          let repository := hostrec1.addr ++ ":" ++ toString port ++
            strTakeButLast 5 path
          let res := { res1 with
            port := some port
            scripts := res1.scripts ++
              [⟨"http-git",
                "\n  " ++ repository ++ "\n    Git repository found!\n",
                .httpGit [(repository, [".git/index"])]⟩] }
          ⟨some { data1 with response := some resp }, hostrec1, [], .ok (some res)⟩
      else if strEndsWith path "/owa/auth/logon.aspx" then
        if status_code ≠ 200 then
          ⟨some { data1 with response := some resp }, hostrec1, [], .ok none⟩
        else
          let versions := owaVersionsOf (resp.body.getD "")
          if versions.isEmpty then
            ⟨some { data1 with response := some resp }, hostrec1, [], .ok none⟩
          else
            let sortedV := sortVersions versions
            let path15 := strTakeButLast 15 path
            let v0 := sortedV.headD ""
            let output :=
              if sortedV.length > 1 then
                "OWA: path " ++ path15 ++ ", version " ++
                  strJoinSep " / " sortedV ++ " (multiple versions found!)"
              else
                "OWA: path " ++ path15 ++ ", version " ++ v0
            let res := { res1 with
              port := some port
              scripts := res1.scripts ++
                [⟨"http-app", output, .httpApp [(path15, "OWA", v0)]⟩] }
            ⟨some { data1 with response := some resp }, hostrec1, [], .ok (some res)⟩
      else
        genericStage ext data1 resp req status_line res1 hostrec1 port
  | none =>
    let port : Int :=
      if req.tls_handshake.isSome || req.tls_log.isSome then 443 else 80
    genericStage ext data1 resp req status_line res1 hostrec1 port

/-- The embedded zgrap_parser_http (source lines 37-216). -/
def zgrap_parser_http (ext : Externals) (data? : Option RawData)
    (hostrec : HostRec) : POutput :=
  match data? with
  | none => ⟨none, hostrec, [], .ok none⟩
  | some d0 =>
    if rawDataEmpty d0 then ⟨some d0, hostrec, [], .ok none⟩
    else
      let d1 := mergeResult d0
      match d1.response with
      | none => ⟨some d1, hostrec, [["response"]], .ok none⟩
      | some resp =>
        match resp.request, resp.status_code, resp.status_line with
        | some req, some sc, some sl => mainAfterChecks ext d1 resp req sc sl hostrec
        | _, _, _ =>
          ⟨some d1, hostrec,
           [missingFields resp.request resp.status_code resp.status_line], .ok none⟩

/-! ## Helper lemmas -/

/-- Folding an append-only step over a list only ever extends the
accumulator. -/
theorem foldl_append_extends {α : Type} (f : String → List α → List α)
    (l : List String) :
    ∀ acc : List α, ∃ t, l.foldl (fun a c => a ++ f c a) acc = acc ++ t := by
  induction l with
  | nil => intro acc; exact ⟨[], by simp⟩
  | cons c cs ih =>
    intro acc
    obtain ⟨t, ht⟩ := ih (acc ++ f c acc)
    exact ⟨f c acc ++ t, by simp [ht]⟩

/-- The TLS stage reads the host address, never writes it. -/
theorem tlsStage_addr (ext : Externals) (tls : Option TLSHandshakeData)
    (res : ServiceRecord) (hostrec : HostRec) :
    (tlsStage ext tls res hostrec).2.addr = hostrec.addr := by
  unfold tlsStage
  split <;> try rfl
  split <;> try rfl
  dsimp only
  split <;> rfl

/-- The TLS stage never touches the other host fields. -/
theorem tlsStage_other (ext : Externals) (tls : Option TLSHandshakeData)
    (res : ServiceRecord) (hostrec : HostRec) :
    (tlsStage ext tls res hostrec).2.other = hostrec.other := by
  unfold tlsStage
  split <;> try rfl
  split <;> try rfl
  dsimp only
  split <;> rfl

/-- The TLS stage only appends to the hostname list. -/
theorem tlsStage_hostnames (ext : Externals) (tls : Option TLSHandshakeData)
    (res : ServiceRecord) (hostrec : HostRec) :
    ∃ t, (tlsStage ext tls res hostrec).2.hostnames.getD [] =
      hostrec.hostnames.getD [] ++ t := by
  unfold tlsStage
  split
  · exact ⟨[], by simp⟩
  split
  · exact ⟨[], by simp⟩
  dsimp only
  split
  · exact ⟨[], by simp⟩
  · obtain ⟨t, ht⟩ := foldl_append_extends
      (fun c acc => ext.add_cert_hostnames c acc) _ (hostrec.hostnames.getD [])
    exact ⟨t, by simpa using ht⟩

/-- The generic path hands the host record through unchanged. -/
theorem genericStage_hostrec (ext : Externals) (data1 : RawData) (resp : Response)
    (req : RequestData) (sl : String) (res1 : ServiceRecord) (h1 : HostRec)
    (port : Int) :
    (genericStage ext data1 resp req sl res1 h1 port).hostrec = h1 := by
  unfold genericStage
  split <;> try rfl
  split <;> rfl

/-- After the checks, the host record of the output is exactly the host
record produced by the TLS stage. -/
theorem mainAfterChecks_hostrec (ext : Externals) (data1 : RawData)
    (resp : Response) (req : RequestData) (sc : Int) (sl : String)
    (hostrec : HostRec) :
    (mainAfterChecks ext data1 resp req sc sl hostrec).hostrec =
      (tlsStage ext (pyTls req) baseRecord hostrec).2 := by
  unfold mainAfterChecks
  split
  · split
    · rfl
    · split
      · split
        · rfl
        · dsimp only
          split <;> rfl
      · split
        · split
          · rfl
          · dsimp only
            split <;> rfl
        · exact genericStage_hostrec ..
  · exact genericStage_hostrec ..

/-- The headers stage never touches the port field. -/
theorem headersStage_port (ext : Externals) (pname sl : String) (req : RequestData)
    (res : ServiceRecord) (banner : List Nat) (hs : HeadersData) :
    (headersStage ext pname sl req res banner hs).2.1.port = res.port := by
  unfold headersStage
  dsimp only
  repeat' split
  all_goals rfl

/-- The body stage never touches the port field. -/
theorem bodyStage_port (ext : Externals) (url : Option URLData) (body : String)
    (res : ServiceRecord) : (bodyStage ext url body res).port = res.port := by
  unfold bodyStage
  dsimp only
  split <;> split <;> rfl

/-- The headers step never touches the port field. -/
theorem headersStep_port (ext : Externals) (pname sl : String) (req : RequestData)
    (res : ServiceRecord) (banner : List Nat) (hOpt : Option HeadersData) :
    (headersStep ext pname sl req res banner hOpt).2.1.port = res.port := by
  unfold headersStep
  split
  · dsimp only
    split
    · exact headersStage_port ..
    · rfl
  · rfl

/-- The fingerprint step never touches the port field. -/
theorem fpStep_port (ext : Externals) (banner : List Nat) (res : ServiceRecord) :
    (fpStep ext banner res).port = res.port := by
  unfold fpStep
  dsimp only
  split <;> rfl

/-- The body step never touches the port field. -/
theorem bodyStep_port (ext : Externals) (url : Option URLData)
    (bOpt : Option String) (res : ServiceRecord) :
    (bodyStep ext url bOpt res).port = res.port := by
  unfold bodyStep
  split
  · split
    · rfl
    · exact bodyStage_port ..
  · rfl

/-- Whatever record the generic path returns carries exactly the port it
was given. -/
theorem genericStage_port (ext : Externals) (data1 : RawData) (resp : Response)
    (req : RequestData) (sl : String) (res1 : ServiceRecord) (h1 : HostRec)
    (port : Int) (r : ServiceRecord) :
    (genericStage ext data1 resp req sl res1 h1 port).result = .ok (some r) →
      r.port = some port := by
  unfold genericStage
  split
  · intro h; exact absurd h (by simp)
  split
  · intro h; exact absurd h (by simp)
  dsimp only
  intro h
  simp only [Except.ok.injEq, Option.some.injEq] at h
  subst h
  rw [bodyStep_port, fpStep_port, headersStep_port]

/-- When the request carries a URL, every record the function returns from
that point carries the port inferred from that URL. -/
theorem mainAfterChecks_port_url (ext : Externals) (data1 : RawData)
    (resp : Response) (req : RequestData) (sc : Int) (sl : String)
    (hostrec : HostRec) (u : URLData) (r : ServiceRecord)
    (hu : req.url = some u) :
    (mainAfterChecks ext data1 resp req sc sl hostrec).result = .ok (some r) →
      r.port = some (inferPortFromURL u) := by
  unfold mainAfterChecks
  rw [hu]
  try dsimp only
  split
  · intro h; exact absurd h (by simp)
  · split
    · split
      · intro h; exact absurd h (by simp)
      · split
        · intro h; exact absurd h (by simp)
        · intro h
          simp only [Except.ok.injEq, Option.some.injEq] at h
          subst h
          rfl
    · split
      · split
        · intro h; exact absurd h (by simp)
        · try dsimp only
          split
          · intro h; exact absurd h (by simp)
          · intro h
            simp only [Except.ok.injEq, Option.some.injEq] at h
            subst h
            rfl
      · exact genericStage_port _ _ _ _ _ _ _ _ _

/-- When the request carries no URL, every record the function returns
carries the default port: 443 when one of the TLS keys is truthy, 80
otherwise. -/
theorem mainAfterChecks_port_nourl (ext : Externals) (data1 : RawData)
    (resp : Response) (req : RequestData) (sc : Int) (sl : String)
    (hostrec : HostRec) (r : ServiceRecord) (hu : req.url = none) :
    (mainAfterChecks ext data1 resp req sc sl hostrec).result = .ok (some r) →
      r.port = some (if req.tls_handshake.isSome || req.tls_log.isSome
                     then (443 : Int) else 80) := by
  unfold mainAfterChecks
  rw [hu]
  try dsimp only
  exact genericStage_port _ _ _ _ _ _ _ _ _

/-! ## Shared concrete inputs for witnesses and examples -/

/-- A host context used by the concrete examples. -/
def hostA : HostRec := { addr := "1.2.3.4", hostnames := none, other := [("k", "v")] }

/-- A minimal request with no URL and no TLS keys. -/
def plainReq : RequestData :=
  { url := none, tls_handshake := none, tls_log := none, method := none }

/-- A minimal valid response around a given request. -/
def mkResp (req : RequestData) : Response :=
  { request := some req, status_code := some 200, status_line := some "200 OK",
    protocol := some { name := some "HTTP/1.1" }, headers := none, body := none }

/-- A minimal valid raw dictionary around a given request. -/
def mkData (req : RequestData) : RawData :=
  { result := none, response := some (mkResp req) }

/-- Request whose URL host carries an explicit port 8080. -/
def req8080 : RequestData :=
  { plainReq with
    url := some { scheme := none, host := some "example.com:8080", path := some "/" } }

/-- Request with no URL but a (zgrab-schema) TLS handshake key. -/
def reqTls : RequestData :=
  { plainReq with tls_handshake := some { server_certificates := none } }

/-- The port of the returned record, when a record was returned. -/
def resultPort (o : POutput) : Option Int :=
  match o.result with
  | .ok (some r) => r.port
  | _ => none

/-- An empty raw dictionary stays empty after the wrapper merge, so it has
no response. -/
theorem mergeResult_response_of_empty (d0 : RawData) (h : rawDataEmpty d0 = true) :
    (mergeResult d0).response = none := by
  unfold rawDataEmpty at h
  unfold mergeResult
  simp only [Bool.and_eq_true, Option.isNone_iff_eq_none] at h
  rw [h.1]
  exact h.2

/-- A found TLS handshake means one of the two TLS keys is present. -/
theorem pyTls_keys (req : RequestData) (t : TLSHandshakeData)
    (h : pyTls req = some t) :
    (req.tls_handshake.isSome || req.tls_log.isSome) = true := by
  unfold pyTls at h
  cases hh : req.tls_handshake with
  | some _ => simp
  | none =>
    rw [hh] at h
    cases hl : req.tls_log with
    | some _ => simp
    | none => rw [hl] at h; cases h

/-! ## The claims -/

/-- A request whose URL dictionary has a host but no path key. -/
def reqNoPath : RequestData :=
  { plainReq with
    url := some { scheme := none, host := some "example.com", path := none } }

/-- C1.  The claim says the normalizer never raises for well-formed JSON
input, however incomplete, URL sub-fields included.  The code does raise:
when the request carries a URL dictionary without a path key,
url.get(path) is None at source line 109 and the call .endswith on it
raises AttributeError.  This theorem evaluates the embedding at such an
input: the call ends in the AttributeError, not in a returned mapping. -/
theorem c1_crash_on_url_without_path :
    (zgrap_parser_http trivExt (some (mkData reqNoPath)) hostA).result =
      .error (.attributeError "endswith") := rfl

/-- A merged shape with a response comes from a non-empty dictionary. -/
theorem rawDataEmpty_false_of_resp (d0 : RawData) (resp : Response)
    (h2 : (mergeResult d0).response = some resp) : rawDataEmpty d0 = false := by
  cases hh : rawDataEmpty d0
  · rfl
  · rw [mergeResult_response_of_empty d0 hh] at h2; cases h2

/-- Evaluation of the function when the merged shape has no response. -/
theorem zgrap_no_response_eq (ext : Externals) (d0 : RawData) (hostrec : HostRec)
    (hE : rawDataEmpty d0 = false) (h2 : (mergeResult d0).response = none) :
    zgrap_parser_http ext (some d0) hostrec =
      ⟨some (mergeResult d0), hostrec, [["response"]], .ok none⟩ := by
  simp only [zgrap_parser_http, hE, Bool.false_eq_true, if_false, h2]

/-- Evaluation of the function when a required response field is missing. -/
theorem zgrap_checkfail_eq (ext : Externals) (d0 : RawData) (hostrec : HostRec)
    (resp : Response) (h2 : (mergeResult d0).response = some resp)
    (h3 : missingFields resp.request resp.status_code resp.status_line ≠ []) :
    zgrap_parser_http ext (some d0) hostrec =
      ⟨some (mergeResult d0), hostrec,
       [missingFields resp.request resp.status_code resp.status_line], .ok none⟩ := by
  simp only [zgrap_parser_http, rawDataEmpty_false_of_resp d0 resp h2,
    Bool.false_eq_true, if_false, h2]
  split
  · rename_i req sc sl heqa heqb heqc
    exact absurd (by simp [missingFields, heqa, heqb, heqc]) h3
  · rfl

/-- Evaluation of the function once all required fields are present: it is
the main body. -/
theorem zgrap_reduce_to_main (ext : Externals) (d0 : RawData) (resp : Response)
    (req : RequestData) (sc : Int) (sl : String) (hostrec : HostRec)
    (h2 : (mergeResult d0).response = some resp) (h3 : resp.request = some req)
    (h4 : resp.status_code = some sc) (h5 : resp.status_line = some sl) :
    zgrap_parser_http ext (some d0) hostrec =
      mainAfterChecks ext (mergeResult d0) resp req sc sl hostrec := by
  simp only [zgrap_parser_http, rawDataEmpty_false_of_resp d0 resp h2,
    Bool.false_eq_true, if_false, h2, h3, h4, h5]

/-- C5.  When (after merging a result wrapper) there is no response key,
or the response lacks one of request, status_code, status_line, the
function emits one warning naming the missing field or fields and returns
the empty mapping, raising nothing. -/
theorem c5_missing_fields_warn_and_empty :
    (∀ (ext : Externals) (d0 : RawData) (hostrec : HostRec),
      rawDataEmpty d0 = false → (mergeResult d0).response = none →
      zgrap_parser_http ext (some d0) hostrec =
        ⟨some (mergeResult d0), hostrec, [["response"]], .ok none⟩) ∧
    (∀ (ext : Externals) (d0 : RawData) (hostrec : HostRec) (resp : Response),
      rawDataEmpty d0 = false → (mergeResult d0).response = some resp →
      missingFields resp.request resp.status_code resp.status_line ≠ [] →
      zgrap_parser_http ext (some d0) hostrec =
        ⟨some (mergeResult d0), hostrec,
         [missingFields resp.request resp.status_code resp.status_line],
         .ok none⟩) := by
  exact ⟨fun ext d0 hostrec hE h2 => zgrap_no_response_eq ext d0 hostrec hE h2,
         fun ext d0 hostrec resp _ h2 h3 => zgrap_checkfail_eq ext d0 hostrec resp h2 h3⟩

/-- A response with only a status_line key. -/
def c5respA : Response :=
  { request := none, status_code := none, status_line := some "200 OK",
    protocol := none, headers := none, body := none }

/-- A wrapper-less raw dictionary around c5respA. -/
def c5dataA : RawData := { result := none, response := some c5respA }

/-- A raw dictionary with an empty wrapper and no response anywhere. -/
def c5dataB : RawData := { result := some { response := none }, response := none }

/-- Witness for C5 at concrete inputs: a wrapper-less dictionary with only
a status_line key inside the response (missing request and status_code),
and one whose response key is absent entirely. -/
theorem c5_witness :
    zgrap_parser_http trivExt (some c5dataA) hostA =
      ⟨some c5dataA, hostA, [["request", "status_code"]], .ok none⟩ ∧
    zgrap_parser_http trivExt (some c5dataB) hostA =
      ⟨some { result := none, response := none }, hostA, [["response"]], .ok none⟩ := by
  constructor
  · exact c5_missing_fields_warn_and_empty.2 trivExt c5dataA hostA c5respA
      (by rfl) (by rfl) (by simp [missingFields, c5respA])
  · exact c5_missing_fields_warn_and_empty.1 trivExt c5dataB hostA (by rfl) (by rfl)

/-- C7.  Every non-empty mapping the function returns has its port field
set; the empty mapping is the only port-less output. -/
theorem c7_nonempty_record_has_port (ext : Externals) (data? : Option RawData)
    (hostrec : HostRec) (r : ServiceRecord) :
    (zgrap_parser_http ext data? hostrec).result = .ok (some r) →
      r.port.isSome = true := by
  unfold zgrap_parser_http
  split
  · intro h; exact absurd h (by simp)
  · split
    · intro h; exact absurd h (by simp)
    · dsimp only
      split
      · intro h; exact absurd h (by simp)
      · split
        · rename_i req sc sl heqa heqb heqc
          intro h
          cases hu : req.url with
          | some u => rw [mainAfterChecks_port_url _ _ _ _ _ _ _ _ _ hu h]; rfl
          | none => rw [mainAfterChecks_port_nourl _ _ _ _ _ _ _ _ hu h]; rfl
        · intro h; exact absurd h (by simp)

/-- Witness for C7: the record returned for a minimal no-URL input has its
port set. -/
theorem c7_witness :
    ({ service_name := "http", service_method := "probed", state_state := "open",
       state_reason := "response", protocol := "tcp", service_tunnel := none,
       port := some 80, scripts := [], extra := [] } :
      ServiceRecord).port.isSome = true :=
  c7_nonempty_record_has_port trivExt (some (mkData plainReq)) hostA _ (by rfl)

/-- C9.  The function reads the host address, leaves every host-context
field other than the hostname list unchanged, and only ever appends to the
hostname list. -/
theorem c9_host_context_frame (ext : Externals) (data? : Option RawData)
    (hostrec : HostRec) :
    (zgrap_parser_http ext data? hostrec).hostrec.addr = hostrec.addr ∧
    (zgrap_parser_http ext data? hostrec).hostrec.other = hostrec.other ∧
    ∃ t, (zgrap_parser_http ext data? hostrec).hostrec.hostnames.getD [] =
      hostrec.hostnames.getD [] ++ t := by
  unfold zgrap_parser_http
  split
  · exact ⟨rfl, rfl, [], by simp⟩
  · split
    · exact ⟨rfl, rfl, [], by simp⟩
    · dsimp only
      split
      · exact ⟨rfl, rfl, [], by simp⟩
      · split
        · rw [mainAfterChecks_hostrec]
          exact ⟨tlsStage_addr .., tlsStage_other .., tlsStage_hostnames ..⟩
        · exact ⟨rfl, rfl, [], by simp⟩

/-- C3.  Port inference: with a URL, the returned record carries the port
inferred from it, where the inference parses the digits after the colon of
the host (falling through silently on parse failure to 443 for the https
scheme and 80 otherwise); without a URL the port defaults to 443 when TLS
handshake data is present and 80 when neither TLS key is; on a concrete
run, URL host example.com:8080 yields port 8080. -/
theorem c3_port_inference :
    (∀ (ext : Externals) (hostrec : HostRec) (d0 : RawData) (resp : Response)
       (req : RequestData) (u : URLData) (r : ServiceRecord),
       (mergeResult d0).response = some resp → resp.request = some req →
       req.url = some u →
       (zgrap_parser_http ext (some d0) hostrec).result = .ok (some r) →
       r.port = some (inferPortFromURL u)) ∧
    (∀ (u : URLData) (h : String) (p : Int),
       u.host = some h → h.data.contains ':' = true →
       parseIntSimple (afterFirstColon h) = some p →
       inferPortFromURL u = p) ∧
    (∀ (u : URLData) (h : String),
       u.host = some h → h.data.contains ':' = true →
       parseIntSimple (afterFirstColon h) = none →
       inferPortFromURL u = (if u.scheme = some "https" then 443 else 80)) ∧
    (∀ u : URLData, (u.host.getD "").data.contains ':' = false →
       inferPortFromURL u = (if u.scheme = some "https" then 443 else 80)) ∧
    (∀ (ext : Externals) (hostrec : HostRec) (d0 : RawData) (resp : Response)
       (req : RequestData) (t : TLSHandshakeData) (r : ServiceRecord),
       (mergeResult d0).response = some resp → resp.request = some req →
       req.url = none → pyTls req = some t →
       (zgrap_parser_http ext (some d0) hostrec).result = .ok (some r) →
       r.port = some 443) ∧
    (∀ (ext : Externals) (hostrec : HostRec) (d0 : RawData) (resp : Response)
       (req : RequestData) (r : ServiceRecord),
       (mergeResult d0).response = some resp → resp.request = some req →
       req.url = none → req.tls_handshake = none → req.tls_log = none →
       (zgrap_parser_http ext (some d0) hostrec).result = .ok (some r) →
       r.port = some 80) ∧
    resultPort (zgrap_parser_http trivExt (some (mkData req8080)) hostA) = some 8080 ∧
    resultPort (zgrap_parser_http trivExt (some (mkData reqTls)) hostA) = some 443 ∧
    resultPort (zgrap_parser_http trivExt (some (mkData plainReq)) hostA) = some 80 := by
  refine ⟨?_, ?_, ?_, ?_, ?_, ?_, rfl, rfl, rfl⟩
  · intro ext hostrec d0 resp req u r h2 h3 h4 hres
    cases hsc : resp.status_code with
    | none =>
      rw [zgrap_checkfail_eq ext d0 hostrec resp h2
        (by simp [missingFields, hsc])] at hres
      exact absurd hres (by simp)
    | some sc =>
      cases hsl : resp.status_line with
      | none =>
        rw [zgrap_checkfail_eq ext d0 hostrec resp h2
          (by simp [missingFields, hsl])] at hres
        exact absurd hres (by simp)
      | some sl =>
        rw [zgrap_reduce_to_main ext d0 resp req sc sl hostrec h2 h3 hsc hsl] at hres
        exact mainAfterChecks_port_url _ _ _ _ _ _ _ _ _ h4 hres
  · intro u h p h1 hc hp
    have hc2 : ':' ∈ h.data := by simpa using hc
    simp [inferPortFromURL, h1, hc2, hp]
  · intro u h h1 hc hp
    simp [inferPortFromURL, h1, hc, hp]
  · intro u hc
    have hc2 : ':' ∉ (u.host.getD "").data := by simpa using hc
    simp [inferPortFromURL, hc2]
  · intro ext hostrec d0 resp req t r h2 h3 h4 htls hres
    cases hsc : resp.status_code with
    | none =>
      rw [zgrap_checkfail_eq ext d0 hostrec resp h2
        (by simp [missingFields, hsc])] at hres
      exact absurd hres (by simp)
    | some sc =>
      cases hsl : resp.status_line with
      | none =>
        rw [zgrap_checkfail_eq ext d0 hostrec resp h2
          (by simp [missingFields, hsl])] at hres
        exact absurd hres (by simp)
      | some sl =>
        rw [zgrap_reduce_to_main ext d0 resp req sc sl hostrec h2 h3 hsc hsl] at hres
        have h6 := mainAfterChecks_port_nourl _ _ _ _ _ _ _ _ h4 hres
        rw [pyTls_keys req t htls] at h6
        simpa using h6
  · intro ext hostrec d0 resp req r h2 h3 h4 htl1 htl2 hres
    cases hsc : resp.status_code with
    | none =>
      rw [zgrap_checkfail_eq ext d0 hostrec resp h2
        (by simp [missingFields, hsc])] at hres
      exact absurd hres (by simp)
    | some sc =>
      cases hsl : resp.status_line with
      | none =>
        rw [zgrap_checkfail_eq ext d0 hostrec resp h2
          (by simp [missingFields, hsl])] at hres
        exact absurd hres (by simp)
      | some sl =>
        rw [zgrap_reduce_to_main ext d0 resp req sc sl hostrec h2 h3 hsc hsl] at hres
        have h6 := mainAfterChecks_port_nourl _ _ _ _ _ _ _ _ h4 hres
        simpa [htl1, htl2] using h6

/-- Witness for C3: the url clause applied at the concrete 8080 input. -/
theorem c3_witness :
    ({ service_name := "http", service_method := "probed", state_state := "open",
       state_reason := "response", protocol := "tcp", service_tunnel := none,
       port := some 8080, scripts := [], extra := [] } :
      ServiceRecord).port =
      some (inferPortFromURL
        { scheme := none, host := some "example.com:8080", path := some "/" }) :=
  c3_port_inference.1 trivExt hostA (mkData req8080) (mkResp req8080) req8080
    { scheme := none, host := some "example.com:8080", path := some "/" } _
    (by rfl) (by rfl) (by rfl) (by rfl)

/-- A successful literal match means the input is the pattern followed by
the returned rest. -/
theorem leadMatch_eq_some (p : List Char) :
    ∀ s r : List Char, leadMatch p s = some r → s = p ++ r := by
  induction p with
  | nil => intro s r h; simpa [leadMatch] using h
  | cons a ps ih =>
    intro s r h
    cases s with
    | nil => simp [leadMatch] at h
    | cons c cs =>
      simp only [leadMatch] at h
      split at h
      · rename_i hc
        simp [hc, ih cs r h]
      · cases h

/-- The reversed git-index suffix can never match at the head of the
reversed OWA suffix (they differ at the second character), whatever
follows. -/
theorem leadMatch_git_owaR (r : List Char) :
    leadMatch ("/.git/index".data.reverse)
      ("/owa/auth/logon.aspx".data.reverse ++ r) = none := rfl

/-- A path ending with the OWA logon suffix cannot also end with the git
index suffix. -/
theorem endsWith_owa_not_git (p : String)
    (h : strEndsWith p "/owa/auth/logon.aspx" = true) :
    strEndsWith p "/.git/index" = false := by
  unfold strEndsWith at h ⊢
  cases hs : leadMatch ("/owa/auth/logon.aspx".data.reverse) (p.data.reverse) with
  | none => rw [hs] at h; cases h
  | some r =>
    rw [leadMatch_eq_some _ _ _ hs, leadMatch_git_owaR]
    rfl

/-- The git detector on a matching path returns the empty mapping whenever
its content check fails. -/
theorem mainAfterChecks_git_fail (ext : Externals) (data1 : RawData)
    (resp : Response) (req : RequestData) (sc : Int) (sl : String)
    (hostrec : HostRec) (u : URLData) (path : String)
    (hu : req.url = some u) (hp : u.path = some path)
    (hgit : strEndsWith path "/.git/index" = true)
    (hfail : sc ≠ 200 ∨ strStartsWith (resp.body.getD "") "DIRC" = false) :
    (mainAfterChecks ext data1 resp req sc sl hostrec).result = .ok none := by
  unfold mainAfterChecks
  rw [hu]
  try dsimp only
  rw [hp]
  try dsimp only
  split
  · split
    · rfl
    · rename_i hsc
      split
      · rfl
      · rename_i hbody
        rcases hfail with hf | hf
        · exact absurd hf hsc
        · rw [hf] at hbody
          exact absurd rfl hbody
  · rename_i hng
    exact absurd hgit hng

/-- The OWA detector on a matching path returns the empty mapping whenever
its content check fails. -/
theorem mainAfterChecks_owa_fail (ext : Externals) (data1 : RawData)
    (resp : Response) (req : RequestData) (sc : Int) (sl : String)
    (hostrec : HostRec) (u : URLData) (path : String)
    (hu : req.url = some u) (hp : u.path = some path)
    (howa : strEndsWith path "/owa/auth/logon.aspx" = true)
    (hfail : sc ≠ 200 ∨ owaVersionsOf (resp.body.getD "") = []) :
    (mainAfterChecks ext data1 resp req sc sl hostrec).result = .ok none := by
  unfold mainAfterChecks
  rw [hu]
  try dsimp only
  rw [hp]
  try dsimp only
  simp only [endsWith_owa_not_git path howa, Bool.false_eq_true, if_false]
  split
  · split
    · rfl
    · rename_i hsc
      try dsimp only
      split
      · rfl
      · rename_i hver
        rcases hfail with hf | hf
        · exact absurd hf hsc
        · rw [hf] at hver
          exact absurd rfl hver
  · rename_i hno
    exact absurd howa hno

/-- C4.  A detector whose path pattern matches but whose content check
fails makes the whole call return the empty mapping: git-index path with
status not 200 or a body not starting with DIRC, and OWA logon path with
status not 200 or no version marker in the body, both yield the empty
mapping rather than a generic service record. -/
theorem c4_detector_hard_fail :
    (∀ (ext : Externals) (hostrec : HostRec) (d0 : RawData) (resp : Response)
       (req : RequestData) (u : URLData) (path : String) (sc : Int) (sl : String),
       (mergeResult d0).response = some resp → resp.request = some req →
       resp.status_code = some sc → resp.status_line = some sl →
       req.url = some u → u.path = some path →
       strEndsWith path "/.git/index" = true →
       (sc ≠ 200 ∨ strStartsWith (resp.body.getD "") "DIRC" = false) →
       (zgrap_parser_http ext (some d0) hostrec).result = .ok none) ∧
    (∀ (ext : Externals) (hostrec : HostRec) (d0 : RawData) (resp : Response)
       (req : RequestData) (u : URLData) (path : String) (sc : Int) (sl : String),
       (mergeResult d0).response = some resp → resp.request = some req →
       resp.status_code = some sc → resp.status_line = some sl →
       req.url = some u → u.path = some path →
       strEndsWith path "/owa/auth/logon.aspx" = true →
       (sc ≠ 200 ∨ owaVersionsOf (resp.body.getD "") = []) →
       (zgrap_parser_http ext (some d0) hostrec).result = .ok none) := by
  constructor
  · intro ext hostrec d0 resp req u path sc sl h2 h3 hsc hsl hu hp hgit hfail
    rw [zgrap_reduce_to_main ext d0 resp req sc sl hostrec h2 h3 hsc hsl]
    exact mainAfterChecks_git_fail ext _ resp req sc sl hostrec u path hu hp hgit hfail
  · intro ext hostrec d0 resp req u path sc sl h2 h3 hsc hsl hu hp howa hfail
    rw [zgrap_reduce_to_main ext d0 resp req sc sl hostrec h2 h3 hsc hsl]
    exact mainAfterChecks_owa_fail ext _ resp req sc sl hostrec u path hu hp howa hfail

/-- A request whose URL path is the git index path. -/
def reqGitPath : RequestData :=
  { plainReq with
    url := some { scheme := none, host := none, path := some "/x/.git/index" } }

/-- A request whose URL path is the OWA logon path. -/
def reqOwaPath : RequestData :=
  { plainReq with
    url := some { scheme := none, host := none, path := some "/owa/auth/logon.aspx" } }

/-- Witness for C4: a git-index path answered 200 with a non-DIRC body and
an OWA logon path answered 200 with a marker-less body both produce the
empty mapping. -/
theorem c4_witness :
    (zgrap_parser_http trivExt
      (some { result := none
              response := some { mkResp reqGitPath with body := some "<html>" } })
      hostA).result = .ok none ∧
    (zgrap_parser_http trivExt
      (some { result := none
              response := some { mkResp reqOwaPath with body := some "<html>" } })
      hostA).result = .ok none := by
  constructor
  · exact c4_detector_hard_fail.1 trivExt hostA _ _ reqGitPath
      { scheme := none, host := none, path := some "/x/.git/index" }
      "/x/.git/index" 200 "200 OK" (by rfl) (by rfl) (by rfl) (by rfl) (by rfl)
      (by rfl) (by decide) (Or.inr (by decide))
  · exact c4_detector_hard_fail.2 trivExt hostA _ _ reqOwaPath
      { scheme := none, host := none, path := some "/owa/auth/logon.aspx" }
      "/owa/auth/logon.aspx" 200 "200 OK" (by rfl) (by rfl) (by rfl) (by rfl)
      (by rfl) (by rfl) (by decide) (Or.inr (by decide))

/-- The git-path URL of the C2 example. -/
def gitURL : URLData := { scheme := none, host := none, path := some "/x/.git/index" }

/-- The C2 example response: git-index path, status 200, DIRC body. -/
def gitResp : Response := { mkResp reqGitPath with body := some "DIRCxyz" }

/-- The C2 example raw dictionary. -/
def gitData : RawData := { result := none, response := some gitResp }

/-- The record actually returned for the C2 example. -/
def gitRec : ServiceRecord :=
  { baseRecord with
    port := some 80
    scripts := [⟨"http-git",
      "\n  1.2.3.4:80/x/.git/\n    Git repository found!\n",
      .httpGit [("1.2.3.4:80/x/.git/", [".git/index"])]⟩] }

/-- C2, counterexample.  The claim names the repository string
addr:port/x/.git, but Python path[:-5] applied to /x/.git/index keeps the
slash before the stripped index, so the code produces addr:port/x/.git/
(trailing slash).  At the claim's own example input the only script's
payload carries the slashed string, which differs from the claimed one. -/
theorem c2_counterexample :
    (zgrap_parser_http trivExt (some gitData) hostA).result = .ok (some gitRec) ∧
    gitRec.scripts.map (fun s => s.payload) =
      [.httpGit [("1.2.3.4:80/x/.git/", [".git/index"])]] ∧
    "1.2.3.4:80/x/.git/" ≠ "1.2.3.4:80/x/.git" := ⟨rfl, rfl, by decide⟩

/-- C2, as amended.  With the path /x/.git/index, status 200, a body
starting with DIRC and no TLS data, the function returns a record with
exactly one script, id http-git, files-found [.git/index], and repository
string addr:port/x/.git/ - the path with its trailing five characters
stripped (keeping the slash before them), prefixed by the host address and
the inferred port. -/
theorem c2_git_detector (ext : Externals) (hostrec : HostRec) (d0 : RawData)
    (resp : Response) (req : RequestData) (u : URLData) (sl : String)
    (h2 : (mergeResult d0).response = some resp) (h3 : resp.request = some req)
    (hsc : resp.status_code = some 200) (hsl : resp.status_line = some sl)
    (hu : req.url = some u) (hp : u.path = some "/x/.git/index")
    (ht1 : req.tls_handshake = none) (ht2 : req.tls_log = none)
    (hb : strStartsWith (resp.body.getD "") "DIRC" = true) :
    (zgrap_parser_http ext (some d0) hostrec).result = .ok (some
      { baseRecord with
        port := some (inferPortFromURL u)
        scripts := [⟨"http-git",
          "\n  " ++ (hostrec.addr ++ ":" ++ toString (inferPortFromURL u) ++
            "/x/.git/") ++ "\n    Git repository found!\n",
          .httpGit [(hostrec.addr ++ ":" ++ toString (inferPortFromURL u) ++
            "/x/.git/", [".git/index"])]⟩] }) := by
  rw [zgrap_reduce_to_main ext d0 resp req 200 sl hostrec h2 h3 hsc hsl]
  unfold mainAfterChecks
  have hTls : pyTls req = none := by simp [pyTls, ht1, ht2]
  simp only [hTls, tlsStage]
  rw [hu]
  try dsimp only
  rw [hp]
  try dsimp only
  split
  · split
    · rename_i h200
      exact absurd rfl h200
    · split
      · rename_i hB
        rw [hb] at hB
        cases hB
      · rfl
  · rename_i hng
    exact absurd (by rfl) hng

/-- Witness for C2's amended theorem: the concrete example input. -/
theorem c2_witness :
    (zgrap_parser_http trivExt (some gitData) hostA).result = .ok (some
      { baseRecord with
        port := some (inferPortFromURL gitURL)
        scripts := [⟨"http-git",
          "\n  " ++ (hostA.addr ++ ":" ++ toString (inferPortFromURL gitURL) ++
            "/x/.git/") ++ "\n    Git repository found!\n",
          .httpGit [(hostA.addr ++ ":" ++ toString (inferPortFromURL gitURL) ++
            "/x/.git/", [".git/index"])]⟩] }) :=
  c2_git_detector trivExt hostA gitData gitResp reqGitPath gitURL "200 OK"
    (by rfl) (by rfl) (by rfl) (by rfl) (by rfl) (by rfl) (by rfl) (by rfl)
    (by rfl)

/-- keyLe is reflexive. -/
theorem keyLe_refl (a : List Nat) : keyLe a a = true := by
  induction a with
  | nil => rfl
  | cons x xs ih => simp [keyLe, ih]

/-- keyLe is total. -/
theorem keyLe_total (a : List Nat) : ∀ b, keyLe a b = true ∨ keyLe b a = true := by
  induction a with
  | nil => intro b; left; rfl
  | cons x xs ih =>
    intro b
    cases b with
    | nil => right; rfl
    | cons y ys =>
      simp only [keyLe]
      rcases lt_trichotomy x y with h | h | h
      · left; simp [h]
      · subst h
        simpa [lt_irrefl] using ih ys
      · right; simp [h]

/-- keyLe is transitive. -/
theorem keyLe_trans (a : List Nat) :
    ∀ b c, keyLe a b = true → keyLe b c = true → keyLe a c = true := by
  induction a with
  | nil => intro b c _ _; rfl
  | cons x xs ih =>
    intro b c h1 h2
    cases b with
    | nil => simp [keyLe] at h1
    | cons y ys =>
      cases c with
      | nil => simp [keyLe] at h2
      | cons z zs =>
        simp only [keyLe] at h1 h2 ⊢
        split_ifs at h1 h2 ⊢ <;>
          first
            | rfl
            | omega
            | exact ih ys zs h1 h2

/-- The numeric-key order on version strings. -/
def VR (a b : String) : Prop := keyLe (verKey a) (verKey b) = true

/-- Membership in an insertion. -/
theorem mem_insertVersion (x : String) (l : List String) (v : String) :
    v ∈ insertVersion x l ↔ v = x ∨ v ∈ l := by
  induction l with
  | nil => simp [insertVersion]
  | cons y ys ih =>
    simp only [insertVersion]
    split
    · simp [List.mem_cons]
    · simp only [List.mem_cons, ih]
      tauto

/-- Insertion preserves the pairwise order. -/
theorem pairwise_insertVersion (x : String) (l : List String)
    (hl : l.Pairwise VR) : (insertVersion x l).Pairwise VR := by
  induction l with
  | nil => simp [insertVersion]
  | cons y ys ih =>
    rw [List.pairwise_cons] at hl
    obtain ⟨hy, hys⟩ := hl
    simp only [insertVersion]
    split
    · rename_i hxy
      refine List.Pairwise.cons ?_ (List.Pairwise.cons hy hys)
      intro a ha
      rcases List.mem_cons.1 ha with h | h
      · subst h; exact hxy
      · exact keyLe_trans _ _ _ hxy (hy a h)
    · rename_i hxy
      have hyx : VR y x := by
        rcases keyLe_total (verKey x) (verKey y) with h | h
        · exact absurd h hxy
        · exact h
      refine List.Pairwise.cons ?_ (ih hys)
      intro a ha
      rcases (mem_insertVersion x ys a).1 ha with h | h
      · subst h; exact hyx
      · exact hy a h

/-- The sorted version list is pairwise ordered. -/
theorem sortVersions_pairwise (l : List String) : (sortVersions l).Pairwise VR := by
  unfold sortVersions
  induction l with
  | nil => simp
  | cons x xs ih => exact pairwise_insertVersion x _ ih

/-- Sorting preserves membership. -/
theorem mem_sortVersions (l : List String) (v : String) :
    v ∈ sortVersions l ↔ v ∈ l := by
  unfold sortVersions
  induction l with
  | nil => simp
  | cons x xs ih =>
    simp only [List.foldr_cons, mem_insertVersion, ih, List.mem_cons]

/-- The head of the sorted version list is numerically smallest. -/
theorem sortVersions_head_min (l : List String) (v : String) (hv : v ∈ l) :
    keyLe (verKey ((sortVersions l).headD "")) (verKey v) = true := by
  have hv2 : v ∈ sortVersions l := (mem_sortVersions l v).2 hv
  cases hs : sortVersions l with
  | nil => rw [hs] at hv2; cases hv2
  | cons x xs =>
    rw [hs] at hv2
    rcases List.mem_cons.1 hv2 with h | h
    · subst h; simp [keyLe_refl]
    · have hp := sortVersions_pairwise l
      rw [hs, List.pairwise_cons] at hp
      simpa [VR] using hp.1 v h

/-- The OWA body of the C6 example, carrying two version markers. -/
def owaBody : String := "\"/owa/auth/15.1.2.3/\" \"/owa/2.0.0.0/\""

/-- The C6 example raw dictionary: OWA logon path, status 200. -/
def owaData : RawData :=
  { result := none, response := some { mkResp reqOwaPath with body := some owaBody } }

/-- The record actually returned for the C6 example. -/
def owaRec : ServiceRecord :=
  { baseRecord with
    port := some 80
    scripts := [⟨"http-app",
      "OWA: path /owa/, version 2.0.0.0 / 15.1.2.3 (multiple versions found!)",
      .httpApp [("/owa/", "OWA", "2.0.0.0")]⟩] }

/-- C6.  The selected OWA version is the numerically smallest distinct one
under integer-tuple ordering, and on the two-marker example the single
http-app script reports version 2.0.0.0 with both versions slash-joined in
the output text together with the multiple-versions annotation. -/
theorem c6_owa_smallest_version :
    (∀ body v : String, v ∈ owaVersionsOf body →
       keyLe (verKey ((sortVersions (owaVersionsOf body)).headD ""))
         (verKey v) = true) ∧
    (zgrap_parser_http trivExt (some owaData) hostA).result = .ok (some owaRec) ∧
    owaVersionsOf owaBody = ["15.1.2.3", "2.0.0.0"] ∧
    sortVersions (owaVersionsOf owaBody) = ["2.0.0.0", "15.1.2.3"] :=
  ⟨fun _ v hv => sortVersions_head_min _ v hv, rfl, rfl, rfl⟩

/-- Witness for C6: the minimality clause applied to the example body and
the version 15.1.2.3 found in it. -/
theorem c6_witness :
    keyLe (verKey ((sortVersions (owaVersionsOf owaBody)).headD ""))
      (verKey "15.1.2.3") = true :=
  c6_owa_smallest_version.1 owaBody "15.1.2.3" (by decide)

/-- A script whose http-headers payload, if any, starts with the synthetic
_status entry. -/
def statusSeeded (s : Script) : Prop :=
  ∀ l, s.payload = ScriptPayload.httpHeaders l → ∃ v rest, l = ("_status", v) :: rest

/-- Appending script lists preserves the seeding invariant. -/
theorem seeded_append {l1 l2 : List Script} (h1 : ∀ s ∈ l1, statusSeeded s)
    (h2 : ∀ s ∈ l2, statusSeeded s) : ∀ s ∈ l1 ++ l2, statusSeeded s := by
  intro s hs
  rcases List.mem_append.1 hs with h | h
  · exact h1 s h
  · exact h2 s h

/-- A singleton whose payload is not an http-headers payload satisfies the
invariant vacuously. -/
theorem seeded_singleton_other (idv out : String) (p : ScriptPayload)
    (hp : ∀ l, p ≠ ScriptPayload.httpHeaders l) :
    ∀ s ∈ [(⟨idv, out, p⟩ : Script)], statusSeeded s := by
  intro s hs
  rw [List.mem_singleton] at hs
  subst hs
  intro l heq
  exact absurd heq (hp l)

/-- A singleton carrying a seeded http-headers payload satisfies the
invariant. -/
theorem seeded_singleton_headers (idv out line : String)
    (entries : List (String × String)) :
    ∀ s ∈ [(⟨idv, out, ScriptPayload.httpHeaders (("_status", line) :: entries)⟩ :
      Script)], statusSeeded s := by
  intro s hs
  rw [List.mem_singleton] at hs
  subst hs
  intro l heq
  injection heq with h
  exact ⟨line, entries, h.symm⟩

/-- The TLS stage preserves the seeding invariant. -/
theorem tlsStage_seeded (ext : Externals) (tls : Option TLSHandshakeData)
    (res : ServiceRecord) (hostrec : HostRec)
    (hres : ∀ s ∈ res.scripts, statusSeeded s) :
    ∀ s ∈ (tlsStage ext tls res hostrec).1.scripts, statusSeeded s := by
  unfold tlsStage
  split
  · exact hres
  · split
    · exact hres
    · dsimp only
      split
      · exact hres
      · exact seeded_append hres (seeded_singleton_other _ _ _ (by intro l h; cases h))

/-- The headers stage preserves the seeding invariant: the only
http-headers payload it creates is seeded with the _status entry. -/
theorem headersStage_seeded (ext : Externals) (pname sl : String)
    (req : RequestData) (res : ServiceRecord) (banner : List Nat)
    (hs : HeadersData) (hres : ∀ s ∈ res.scripts, statusSeeded s) :
    ∀ s ∈ (headersStage ext pname sl req res banner hs).2.1.scripts,
      statusSeeded s := by
  unfold headersStage
  dsimp only
  split
  · split
    · split
      · exact hres
      · exact seeded_append hres (seeded_singleton_headers _ _ _ _)
    · split
      · exact seeded_append hres
          (seeded_singleton_other _ _ _ (by intro l h; cases h))
      · exact seeded_append
          (seeded_append hres (seeded_singleton_headers _ _ _ _))
          (seeded_singleton_other _ _ _ (by intro l h; cases h))
  · split
    · exact hres
    · exact seeded_append hres (seeded_singleton_headers _ _ _ _)

/-- The headers step preserves the seeding invariant. -/
theorem headersStep_seeded (ext : Externals) (pname sl : String)
    (req : RequestData) (res : ServiceRecord) (banner : List Nat)
    (hOpt : Option HeadersData) (hres : ∀ s ∈ res.scripts, statusSeeded s) :
    ∀ s ∈ (headersStep ext pname sl req res banner hOpt).2.1.scripts,
      statusSeeded s := by
  unfold headersStep
  split
  · dsimp only
    split
    · exact headersStage_seeded ext pname sl req res banner _ hres
    · exact hres
  · exact hres

/-- The fingerprint step never touches the scripts. -/
theorem fpStep_scripts (ext : Externals) (banner : List Nat)
    (res : ServiceRecord) : (fpStep ext banner res).scripts = res.scripts := by
  unfold fpStep
  dsimp only
  split <;> rfl

/-- The body stage preserves the seeding invariant. -/
theorem bodyStage_seeded (ext : Externals) (url : Option URLData) (body : String)
    (res : ServiceRecord) (hres : ∀ s ∈ res.scripts, statusSeeded s) :
    ∀ s ∈ (bodyStage ext url body res).scripts, statusSeeded s := by
  unfold bodyStage
  dsimp only
  have hcontent := seeded_append hres
    (seeded_singleton_other "http-content" (ext.nmap_encode_data body)
      ScriptPayload.noPayload (by intro l h; cases h))
  split
  · split
    · exact seeded_append
        (seeded_append hcontent
          (seeded_singleton_other _ _ _ (by intro l h; cases h)))
        (seeded_singleton_other _ _ _ (by intro l h; cases h))
    · exact seeded_append hcontent
        (seeded_singleton_other _ _ _ (by intro l h; cases h))
  · split
    · exact seeded_append hcontent
        (seeded_singleton_other _ _ _ (by intro l h; cases h))
    · exact hcontent

/-- The body step preserves the seeding invariant. -/
theorem bodyStep_seeded (ext : Externals) (url : Option URLData)
    (bOpt : Option String) (res : ServiceRecord)
    (hres : ∀ s ∈ res.scripts, statusSeeded s) :
    ∀ s ∈ (bodyStep ext url bOpt res).scripts, statusSeeded s := by
  unfold bodyStep
  split
  · split
    · exact hres
    · exact bodyStage_seeded ext url _ res hres
  · exact hres

/-- The generic path preserves the seeding invariant. -/
theorem genericStage_seeded (ext : Externals) (data1 : RawData) (resp : Response)
    (req : RequestData) (sl : String) (res1 : ServiceRecord) (h1 : HostRec)
    (port : Int) (r : ServiceRecord)
    (hres : ∀ s ∈ res1.scripts, statusSeeded s) :
    (genericStage ext data1 resp req sl res1 h1 port).result = .ok (some r) →
      ∀ s ∈ r.scripts, statusSeeded s := by
  unfold genericStage
  split
  · intro h; exact absurd h (by simp)
  split
  · intro h; exact absurd h (by simp)
  dsimp only
  intro h
  simp only [Except.ok.injEq, Option.some.injEq] at h
  subst h
  refine bodyStep_seeded _ _ _ _ ?_
  rw [fpStep_scripts]
  exact headersStep_seeded _ _ _ _ _ _ _ hres

/-- The main body preserves the seeding invariant. -/
theorem mainAfterChecks_seeded (ext : Externals) (data1 : RawData)
    (resp : Response) (req : RequestData) (sc : Int) (sl : String)
    (hostrec : HostRec) (r : ServiceRecord) :
    (mainAfterChecks ext data1 resp req sc sl hostrec).result = .ok (some r) →
      ∀ s ∈ r.scripts, statusSeeded s := by
  have hbase : ∀ s ∈ (tlsStage ext (pyTls req) baseRecord hostrec).1.scripts,
      statusSeeded s :=
    tlsStage_seeded ext (pyTls req) baseRecord hostrec (by intro s hs; cases hs)
  unfold mainAfterChecks
  split
  · split
    · intro h; exact absurd h (by simp)
    · split
      · split
        · intro h; exact absurd h (by simp)
        · split
          · intro h; exact absurd h (by simp)
          · intro h
            simp only [Except.ok.injEq, Option.some.injEq] at h
            subst h
            exact seeded_append hbase
              (seeded_singleton_other _ _ _ (by intro l hq; cases hq))
      · split
        · split
          · intro h; exact absurd h (by simp)
          · try dsimp only
            split
            · intro h; exact absurd h (by simp)
            · intro h
              simp only [Except.ok.injEq, Option.some.injEq] at h
              subst h
              exact seeded_append hbase
                (seeded_singleton_other _ _ _ (by intro l hq; cases hq))
        · exact genericStage_seeded _ _ _ _ _ _ _ _ _ hbase
  · exact genericStage_seeded _ _ _ _ _ _ _ _ _ hbase

/-- Request with a method and no URL, for the headers example. -/
def hdrReq : RequestData := { plainReq with method := some "GET" }

/-- The C8 example response: a content-type header plus an un-named bucket
entry, request method GET. -/
def hdrResp : Response :=
  { mkResp hdrReq with
    headers := some { known := [("content-type", ["text/html"])]
                      unknown := some [{ key := "x-custom", value := ["1"] }] } }

/-- The C8 example raw dictionary. -/
def hdrData : RawData := { result := none, response := some hdrResp }

/-- The record actually returned for the C8 example. -/
def hdrRec : ServiceRecord :=
  { baseRecord with
    port := some 80
    scripts := [⟨"http-headers",
      "HTTP/1.1 200 OK\ncontent-type: text/html\nx-custom: 1\n\n(Request type: GET)",
      .httpHeaders [("_status", "HTTP/1.1 200 OK"),
                    ("content-type", "text/html"), ("x-custom", "1")]⟩] }

/-- C8.  In every record the function returns, an http-headers structured
payload always begins with the synthetic _status entry; on the example
with a content-type header, an un-named x-custom bucket entry and request
method GET, the single http-headers script carries the flattened entries
in the structured payload and the Request-type line in the output text
only. -/
theorem c8_headers_script :
    (∀ (ext : Externals) (data? : Option RawData) (hostrec : HostRec)
       (r : ServiceRecord) (s : Script) (l : List (String × String)),
       (zgrap_parser_http ext data? hostrec).result = .ok (some r) →
       s ∈ r.scripts → s.payload = ScriptPayload.httpHeaders l →
       ∃ v rest, l = ("_status", v) :: rest) ∧
    (zgrap_parser_http trivExt (some hdrData) hostA).result = .ok (some hdrRec) := by
  constructor
  · intro ext data? hostrec r s l hres hs hp
    suffices h : ∀ s ∈ r.scripts, statusSeeded s from h s hs l hp
    revert hres
    unfold zgrap_parser_http
    split
    · intro h; exact absurd h (by simp)
    · split
      · intro h; exact absurd h (by simp)
      · dsimp only
        split
        · intro h; exact absurd h (by simp)
        · split
          · exact mainAfterChecks_seeded _ _ _ _ _ _ _ _
          · intro h; exact absurd h (by simp)
  · rfl

/-- Witness for C8: the seeding clause applied to the example run. -/
theorem c8_witness :
    ∃ v rest,
      [("_status", "HTTP/1.1 200 OK"), ("content-type", "text/html"),
       ("x-custom", "1")] = ("_status", v) :: rest :=
  c8_headers_script.1 trivExt (some hdrData) hostA hdrRec
    ⟨"http-headers",
      "HTTP/1.1 200 OK\ncontent-type: text/html\nx-custom: 1\n\n(Request type: GET)",
      .httpHeaders [("_status", "HTTP/1.1 200 OK"),
                    ("content-type", "text/html"), ("x-custom", "1")]⟩
    [("_status", "HTTP/1.1 200 OK"), ("content-type", "text/html"),
     ("x-custom", "1")]
    (by rfl) (by simp [hdrRec, baseRecord]) (by rfl)

/-- The result wrapper, once popped, is gone from the merged shape. -/
theorem mergeResult_result (d0 : RawData) (r0 : RawDataInner)
    (h : d0.result = some r0) : (mergeResult d0).result = none := by
  simp [mergeResult, h]

/-- The main body returns the caller's dictionary with only its response
possibly rewritten; the top-level result key is untouched. -/
theorem mainAfterChecks_data (ext : Externals) (data1 : RawData)
    (resp : Response) (req : RequestData) (sc : Int) (sl : String)
    (hostrec : HostRec) :
    ∃ d1, (mainAfterChecks ext data1 resp req sc sl hostrec).data = some d1 ∧
      d1.result = data1.result := by
  unfold mainAfterChecks genericStage
  repeat' split
  all_goals try dsimp only
  repeat' split
  all_goals exact ⟨_, rfl, rfl⟩

/-- The headers stage always returns the flattened mapping with the
un-named bucket gone. -/
theorem headersStage_fst (ext : Externals) (pname sl : String)
    (req : RequestData) (res : ServiceRecord) (banner : List Nat)
    (hs : HeadersData) :
    (headersStage ext pname sl req res banner hs).1 =
      ⟨flattenUnknown hs, none⟩ := by
  unfold headersStage
  dsimp only
  repeat' split
  all_goals rfl

/-- The headers step on truthy headers returns the flattened mapping. -/
theorem headersStep_fst (ext : Externals) (pname sl : String)
    (req : RequestData) (res : ServiceRecord) (banner : List Nat)
    (hs : HeadersData) (hne : headersNonempty hs = true) :
    (headersStep ext pname sl req res banner (some hs)).1 =
      some ⟨flattenUnknown hs, none⟩ := by
  simp only [headersStep, hne, eq_self_iff_true, if_true]
  rw [headersStage_fst]

/-- The raw dictionary used by the C10 counterexample: its headers carry an
un-named bucket, but status_code is missing, so the function returns
before the header-flattening code runs. -/
def c10data : RawData :=
  { result := none
    response := some { request := some plainReq, status_code := none,
                       status_line := some "200 OK", protocol := none,
                       headers := some { known := []
                                         unknown := some [{ key := "x-custom",
                                                            value := ["1"] }] },
                       body := none } }

/-- C10, counterexample.  The claim says that when the headers mapping
carries an un-named bucket the key is removed by the call.  On an input
whose response lacks status_code the function returns the empty mapping
first, and the caller's dictionary still carries the bucket afterwards. -/
theorem c10_counterexample :
    zgrap_parser_http trivExt (some c10data) hostA =
      ⟨some c10data, hostA, [["status_code"]], .ok none⟩ ∧
    c10data.response.map (fun r => r.headers) =
      some (some { known := []
                   unknown := some [{ key := "x-custom", value := ["1"] }] }) :=
  ⟨rfl, rfl⟩

/-- A raw dictionary whose payload sits inside a result wrapper and whose
headers carry an un-named bucket. -/
def c10wData : RawData := { result := some { response := some hdrResp }, response := none }

/-- C10, as amended.  The function mutates the caller's dictionary in
place: a result wrapper key, when present, is always removed (its contents
merged); the un-named header bucket is removed, its entries flattened
under their own keys, exactly when the generic header-processing path runs
(all required fields present, no detector return, truthy headers, protocol
name present); on the concrete wrapped example both mutations are visible
in the final shape. -/
theorem c10_in_place_mutation :
    (∀ (ext : Externals) (d0 : RawData) (hostrec : HostRec) (r0 : RawDataInner),
       d0.result = some r0 →
       ∃ d1, (zgrap_parser_http ext (some d0) hostrec).data = some d1 ∧
         d1.result = none) ∧
    (zgrap_parser_http trivExt (some c10wData) hostA).data =
      some { result := none
             response := some { hdrResp with
               headers := some { known := [("content-type", ["text/html"]),
                                           ("x-custom", ["1"])]
                                 unknown := none } } } ∧
    (∀ (ext : Externals) (hostrec : HostRec) (d0 : RawData) (resp : Response)
       (req : RequestData) (sc : Int) (sl : String) (proto : ProtocolData)
       (pname : String) (hs : HeadersData),
       (mergeResult d0).response = some resp → resp.request = some req →
       resp.status_code = some sc → resp.status_line = some sl →
       req.url = none → resp.protocol = some proto → proto.name = some pname →
       resp.headers = some hs → headersNonempty hs = true →
       (zgrap_parser_http ext (some d0) hostrec).data =
         some { mergeResult d0 with
           response := some { resp with
             headers := some ⟨flattenUnknown hs, none⟩ } }) := by
  refine ⟨?_, rfl, ?_⟩
  · intro ext d0 hostrec r0 h0
    have hE : rawDataEmpty d0 = false := by simp [rawDataEmpty, h0]
    simp only [zgrap_parser_http, hE, Bool.false_eq_true, if_false]
    split
    · exact ⟨_, rfl, mergeResult_result d0 r0 h0⟩
    · split
      · obtain ⟨d1, hd1, hr1⟩ := mainAfterChecks_data ext (mergeResult d0) _ _ _ _ hostrec
        exact ⟨d1, hd1, by rw [hr1, mergeResult_result d0 r0 h0]⟩
      · exact ⟨_, rfl, mergeResult_result d0 r0 h0⟩
  · intro ext hostrec d0 resp req sc sl proto pname hs h2 h3 hsc hsl hu hpr hpn hh hne
    rw [zgrap_reduce_to_main ext d0 resp req sc sl hostrec h2 h3 hsc hsl]
    simp only [mainAfterChecks, hu, genericStage, hpr, hpn, hh]
    rw [headersStep_fst _ _ _ _ _ _ _ hne]

/-- Witness for C10's amended theorem: the pop clause and the flattening
clause applied at the wrapped example. -/
theorem c10_witness :
    (∃ d1, (zgrap_parser_http trivExt (some c10wData) hostA).data = some d1 ∧
       d1.result = none) ∧
    (zgrap_parser_http trivExt (some hdrData) hostA).data =
      some { mergeResult hdrData with
        response := some { hdrResp with
          headers := some ⟨flattenUnknown
            { known := [("content-type", ["text/html"])]
              unknown := some [{ key := "x-custom", value := ["1"] }] }, none⟩ } } :=
  ⟨c10_in_place_mutation.1 trivExt c10wData hostA { response := some hdrResp } (by rfl),
   c10_in_place_mutation.2.2 trivExt hostA hdrData hdrResp hdrReq 200 "200 OK"
     { name := some "HTTP/1.1" } "HTTP/1.1"
     { known := [("content-type", ["text/html"])]
       unknown := some [{ key := "x-custom", value := ["1"] }] }
     (by rfl) (by rfl) (by rfl) (by rfl) (by rfl) (by rfl) (by rfl) (by rfl)
     (by rfl)⟩

end Zgrab

